import Mathlib

/-!
Verification of the Help-Others backend (src/main.py) against its
natural-language specification.

The program is a FastAPI app delegating to Firebase Auth (the Identity
Provider) and Firestore (the Document Store).  We embed it shallowly:

* Firestore documents are association lists of string keys to JSON-ish
  values (`Doc`); collections are association lists of ids to documents.
* The Identity Provider state is a list of auth user records; lookup by
  email and create-user mirror `auth.get_user_by_email` /
  `auth.create_user`.
* Each HTTP handler becomes a Lean function on an explicit `ServerState`,
  returning `Except HTTPError result` together with the new state.
  `HTTPError` is the pair (status code, detail) of `HTTPException`.
* The `db` global being `None` (credential absent at startup) is the
  boolean parameter `dbInit`; each handler checks it first, exactly as
  the source's `if not db:` guard does.
* Python `try/except Exception` in `login_user` is modelled explicitly:
  every exception raised inside the try body — including the
  `HTTPException(401)` on phone mismatch — is converted to a 400
  response, which is exactly what the source does.
-/

/-- A JSON-ish field value as stored in a Firestore document: the code only
stores strings and the boolean `verified` flag. -/
inductive Value where
  | str : String → Value
  | bool : Bool → Value
deriving DecidableEq, Repr

/-- A Firestore document: an association list of field names to values,
mirroring a Python dict (first binding of a key is its value; the
operations below keep keys unique). -/
abbrev Doc := List (String × Value)

/-- Read a field of a document (Python `d[k]` / `dict.get`). -/
def Doc.getField : Doc → String → Option Value
  | [], _ => none
  | kv :: d, k => if kv.1 = k then some kv.2 else Doc.getField d k

/-- Set a field of a document, overwriting an existing binding and
otherwise appending it, as Python dict assignment `d[k] = v` does
(existing keys keep their position, new keys go last). -/
def Doc.setField : Doc → String → Value → Doc
  | [], k, v => [(k, v)]
  | kv :: d, k, v => if kv.1 = k then (k, v) :: d else kv :: Doc.setField d k v

/-- Apply a list of field updates to a document (Firestore partial
update). -/
def Doc.setFields (d : Doc) (fields : List (String × Value)) : Doc :=
  fields.foldl (fun acc kv => acc.setField kv.1 kv.2) d

/-- A Firestore collection: an association list of document ids to
documents. -/
abbrev Collection := List (String × Doc)

/-- Read a document by id (`collection.document(id).get`); `none` means
the document does not exist. -/
def Collection.getDoc : Collection → String → Option Doc
  | [], _ => none
  | kv :: c, id => if kv.1 = id then some kv.2 else Collection.getDoc c id

/-- Create or overwrite a document (`collection.document(id).set(d)`). -/
def Collection.setDoc : Collection → String → Doc → Collection
  | [], id, d => [(id, d)]
  | kv :: c, id, d =>
    if kv.1 = id then (id, d) :: c else kv :: Collection.setDoc c id d

/-- Partially update an existing document
(`collection.document(id).update(fields)`): only the listed fields are
written, everything else is kept; a missing document is left alone (the
code only calls this after a successful existence check). -/
def Collection.updateDoc : Collection → String → List (String × Value) → Collection
  | [], _, _ => []
  | kv :: c, id, fields =>
    if kv.1 = id then (id, Doc.setFields kv.2 fields) :: c
    else kv :: Collection.updateDoc c id fields

/-- A Firebase Auth user record, as returned by the Identity Provider. -/
structure AuthUser where
  uid : String
  email : String
  phone_number : String
deriving DecidableEq, Repr

/-- The Identity Provider's user table. -/
abbrev AuthDB := List AuthUser

/-- `auth.get_user_by_email`: `none` models the `UserNotFoundError`
exception. -/
def getUserByEmail (a : AuthDB) (email : String) : Option AuthUser :=
  a.find? (fun u => u.email = email)

/-- `auth.create_user(email=..., phone_number=...)`: fails (with
`EmailAlreadyExistsError`, modelled as `Except.error ()`) when a user
with that email already exists; otherwise the provider assigns `newUid`
and returns the created record. -/
def createUser (a : AuthDB) (newUid email phone : String) :
    Except Unit (AuthUser × AuthDB) :=
  if a.any (fun u => u.email = email) then
    Except.error ()
  else
    let u : AuthUser := ⟨newUid, email, phone⟩
    Except.ok (u, a ++ [u])

/-- An `HTTPException`: status code and detail string. -/
abbrev HTTPError := Nat × String

/-- The whole backend state: the Identity Provider table and the two
Firestore collections the code touches (`users` and `help_requests`). -/
structure ServerState where
  authDB : AuthDB
  users : Collection
  help_requests : Collection
deriving DecidableEq, Repr

/-- Detail string of the guard raised by every handler when the Firebase
client was never initialized (`db` is `None`). -/
def dbMissingDetail : String := "Firebase is not initialized."

/-- `register_user` (src/main.py lines 55-77).  `candidateId` is the
locally generated `uuid.uuid4()`, `providerUid` the uid the Identity
Provider assigns on success.  Returns (message, user_id) on success. -/
def register_user (dbInit : Bool) (s : ServerState)
    (candidateId providerUid name email phone idProofName : String) :
    Except HTTPError (String × String) × ServerState :=
  if !dbInit then (Except.error (500, dbMissingDetail), s)
  else
    let user_id := candidateId
    let id_proof_filename := user_id ++ "_" ++ idProofName
    match createUser s.authDB providerUid email ("+" ++ phone) with
    | Except.error _ => (Except.error (400, "Email already registered"), s)
    | Except.ok (u, authDB') =>
      let user_id := u.uid
      let user_data : Doc :=
        [("name", Value.str name), ("email", Value.str email),
         ("phone", Value.str phone), ("id_proof", Value.str id_proof_filename),
         ("verified", Value.bool false)]
      (Except.ok ("User registered successfully", user_id),
       { s with authDB := authDB', users := s.users.setDoc user_id user_data })

/-- An exception raised inside `login_user`'s try block. -/
inductive LoginExc where
  | userNotFound : String → LoginExc
  | httpExc : Nat → String → LoginExc
deriving DecidableEq, Repr

/-- Python `str(e)` for the exceptions that can occur in `login_user`'s
try block (`UserNotFoundError`'s message, and `HTTPException.__str__`,
which renders as "status: detail"). -/
def LoginExc.toStr : LoginExc → String
  | .userNotFound email =>
      "No user record found for the provided email: " ++ email
  | .httpExc code detail => toString code ++ ": " ++ detail

/-- The body of `login_user`'s try block (src/main.py lines 90-93):
look the user up by email, raise `HTTPException(401)` on phone mismatch,
otherwise return (message, user_id). -/
def loginTryBody (a : AuthDB) (email phone : String) :
    Except LoginExc (String × String) :=
  match getUserByEmail a email with
  | none => Except.error (LoginExc.userNotFound email)
  | some u =>
    if u.phone_number ≠ phone then
      Except.error (LoginExc.httpExc 401 "Invalid credentials")
    else
      Except.ok ("Login successful", u.uid)

/-- `login_user` (src/main.py lines 84-95).  The `except Exception`
clause catches every exception raised in the try body — including the
`HTTPException(401)` — and re-raises it as `HTTPException(400, str(e))`.
Login never changes state. -/
def login_user (dbInit : Bool) (s : ServerState) (email phone : String) :
    Except HTTPError (String × String) :=
  if !dbInit then Except.error (500, dbMissingDetail)
  else
    match loginTryBody s.authDB email phone with
    | Except.ok r => Except.ok r
    | Except.error e => Except.error (400, e.toStr)

/-- The pydantic `HelpRequest` request model (src/main.py lines 98-102):
exactly four string fields; any extra field of the request body (such as
a client-supplied `status`) is ignored by parsing. -/
structure HelpRequestIn where
  user_id : String
  category : String
  description : String
  location : String
deriving DecidableEq, Repr

/-- Pydantic parsing of a raw JSON body into `HelpRequest`: the four
declared fields must be present as strings; every other key of the body
is dropped. -/
def parseHelpRequest (body : Doc) : Option HelpRequestIn :=
  match body.getField "user_id", body.getField "category",
        body.getField "description", body.getField "location" with
  | some (Value.str u), some (Value.str c),
    some (Value.str d), some (Value.str l) => some ⟨u, c, d, l⟩
  | _, _, _, _ => none

/-- `request.dict()` for the parsed model. -/
def HelpRequestIn.toDoc (r : HelpRequestIn) : Doc :=
  [("user_id", Value.str r.user_id), ("category", Value.str r.category),
   ("description", Value.str r.description), ("location", Value.str r.location)]

/-- `request_help` (src/main.py lines 104-113).  `newId` is the generated
`uuid.uuid4()`.  The stored document is `request.dict()` with `status`
forced to "open". -/
def request_help (dbInit : Bool) (s : ServerState) (newId : String)
    (req : HelpRequestIn) :
    Except HTTPError (String × String) × ServerState :=
  if !dbInit then (Except.error (500, dbMissingDetail), s)
  else
    let request_data := req.toDoc.setField "status" (Value.str "open")
    (Except.ok ("Help request created successfully", newId),
     { s with help_requests := s.help_requests.setDoc newId request_data })

/-- The `/request_help/` endpoint as seen by a client: FastAPI first
parses the raw body through the pydantic model (rejecting it with a 422
validation error otherwise), then runs the handler. -/
def request_help_endpoint (dbInit : Bool) (s : ServerState) (newId : String)
    (body : Doc) : Except HTTPError (String × String) × ServerState :=
  match parseHelpRequest body with
  | none => (Except.error (422, "validation error"), s)
  | some req => request_help dbInit s newId req

/-- The response row for one request in `/view_requests/`:
`{"request_id": req.id, **req.to_dict()}` — a dict literal starting from
the id and merging in the stored fields (later keys win, as in Python). -/
def mergeWithId (id : String) (d : Doc) : Doc :=
  Doc.setFields [("request_id", Value.str id)] d

/-- `view_requests` (src/main.py lines 116-122): query the
`help_requests` collection for documents whose `status` equals "open"
and shape each into a response row.  Read-only. -/
def view_requests (dbInit : Bool) (s : ServerState) :
    Except HTTPError (List Doc) :=
  if !dbInit then Except.error (500, dbMissingDetail)
  else
    Except.ok
      ((s.help_requests.filter
          (fun kv => kv.2.getField "status" = some (Value.str "open"))).map
        (fun kv => mergeWithId kv.1 kv.2))

/-- The pydantic `VolunteerAccept` request model (src/main.py 124-126). -/
structure VolunteerAccept where
  request_id : String
  volunteer_id : String
deriving DecidableEq, Repr

/-- `accept_request` (src/main.py lines 128-138): read the document,
404 if absent, otherwise unconditionally update `status` to "accepted"
and `volunteer_id` to the supplied volunteer. -/
def accept_request (dbInit : Bool) (s : ServerState) (data : VolunteerAccept) :
    Except HTTPError String × ServerState :=
  if !dbInit then (Except.error (500, dbMissingDetail), s)
  else
    match s.help_requests.getDoc data.request_id with
    | none => (Except.error (404, "Request not found"), s)
    | some _ =>
      let hr := s.help_requests.updateDoc data.request_id
        [("status", Value.str "accepted"),
         ("volunteer_id", Value.str data.volunteer_id)]
      (Except.ok "Request accepted successfully", { s with help_requests := hr })

/-!  Trace semantics: one API call per step, with the Firebase client
initialized.  The nondeterministic uuid4 choices appear as data of the
operation. -/

/-- One API call against the running service. -/
inductive Op where
  | register (candidateId providerUid name email phone idProofName : String)
  | login (email phone : String)
  | fileRequest (newId : String) (body : Doc)
  | viewRequests
  | accept (request_id volunteer_id : String)
deriving DecidableEq, Repr

/-- State transition of one API call (responses discarded; read-only
calls and failed calls leave the state as the handlers do). -/
def step (s : ServerState) : Op → ServerState
  | Op.register cand puid name email phone fn =>
      (register_user true s cand puid name email phone fn).2
  | Op.login _ _ => s
  | Op.fileRequest newId body => (request_help_endpoint true s newId body).2
  | Op.viewRequests => s
  | Op.accept r v => (accept_request true s ⟨r, v⟩).2

/-- Run a sequence of API calls. -/
def run (s : ServerState) : List Op → ServerState
  | [] => s
  | op :: ops => run (step s op) ops

/-- A generated identifier is fresh: `uuid.uuid4()` does not collide with
an existing document id.  Only `fileRequest` generates a help-request id
(`register`'s ids live in the other collection). -/
def Op.freshb (s : ServerState) : Op → Bool
  | Op.fileRequest newId _ => (Collection.getDoc s.help_requests newId).isNone
  | _ => true

/-- Every generated id along a run is fresh at the state where it is
generated. -/
def freshRunb (s : ServerState) : List Op → Bool
  | [] => true
  | op :: ops => op.freshb s && freshRunb (step s op) ops

/-- The request `r` exists in the collection and its status field is
"accepted". -/
def acceptedIn (c : Collection) (r : String) : Bool :=
  match Collection.getDoc c r with
  | some d => Doc.getField d "status" == some (Value.str "accepted")
  | none => false

/-- The request `r` exists in the collection and its status field is
"open". -/
def openIn (c : Collection) (r : String) : Bool :=
  match Collection.getDoc c r with
  | some d => Doc.getField d "status" == some (Value.str "open")
  | none => false

/-- The help request `r` exists and its status field is "accepted". -/
def isAccepted (s : ServerState) (r : String) : Bool :=
  acceptedIn s.help_requests r

/-- The help request `r` exists and its status field is "open". -/
def isOpen (s : ServerState) (r : String) : Bool :=
  openIn s.help_requests r

/-!  Basic lemmas about the document/collection operations. -/

theorem getField_setField_self (d : Doc) (k : String) (v : Value) :
    Doc.getField (Doc.setField d k v) k = some v := by
  induction d with
  | nil => simp [Doc.setField, Doc.getField]
  | cons a t ih =>
    by_cases h : a.1 = k
    · simp [Doc.setField, Doc.getField, h]
    · simp [Doc.setField, Doc.getField, h, ih]

theorem getField_setField_ne (d : Doc) (k k' : String) (v : Value)
    (h : k' ≠ k) :
    Doc.getField (Doc.setField d k v) k' = Doc.getField d k' := by
  induction d with
  | nil => simp [Doc.setField, Doc.getField, Ne.symm h]
  | cons a t ih =>
    by_cases ha : a.1 = k
    · subst ha
      simp [Doc.setField, Doc.getField, Ne.symm h]
    · by_cases ha' : a.1 = k'
      · simp [Doc.setField, Doc.getField, ha, ha', h]
      · simp [Doc.setField, Doc.getField, ha, ha', ih]

theorem getDoc_setDoc_self (c : Collection) (id : String) (d : Doc) :
    Collection.getDoc (Collection.setDoc c id d) id = some d := by
  induction c with
  | nil => simp [Collection.setDoc, Collection.getDoc]
  | cons a t ih =>
    by_cases h : a.1 = id
    · simp [Collection.setDoc, Collection.getDoc, h]
    · simp [Collection.setDoc, Collection.getDoc, h, ih]

theorem getDoc_setDoc_ne (c : Collection) (id id' : String) (d : Doc)
    (h : id' ≠ id) :
    Collection.getDoc (Collection.setDoc c id d) id' = Collection.getDoc c id' := by
  induction c with
  | nil => simp [Collection.setDoc, Collection.getDoc, Ne.symm h]
  | cons a t ih =>
    by_cases ha : a.1 = id
    · subst ha
      simp [Collection.setDoc, Collection.getDoc, Ne.symm h]
    · by_cases ha' : a.1 = id'
      · simp [Collection.setDoc, Collection.getDoc, ha, ha', h]
      · simp [Collection.setDoc, Collection.getDoc, ha, ha', ih]

theorem getDoc_updateDoc_self (c : Collection) (id : String)
    (fields : List (String × Value)) :
    Collection.getDoc (Collection.updateDoc c id fields) id =
      (Collection.getDoc c id).map (fun d => Doc.setFields d fields) := by
  induction c with
  | nil => simp [Collection.updateDoc, Collection.getDoc]
  | cons a t ih =>
    by_cases h : a.1 = id
    · simp [Collection.updateDoc, Collection.getDoc, h]
    · simp [Collection.updateDoc, Collection.getDoc, h, ih]

theorem getDoc_updateDoc_ne (c : Collection) (id id' : String)
    (fields : List (String × Value)) (h : id' ≠ id) :
    Collection.getDoc (Collection.updateDoc c id fields) id' =
      Collection.getDoc c id' := by
  induction c with
  | nil => simp [Collection.updateDoc, Collection.getDoc]
  | cons a t ih =>
    by_cases ha : a.1 = id
    · subst ha
      simp [Collection.updateDoc, Collection.getDoc, Ne.symm h]
    · by_cases ha' : a.1 = id'
      · simp [Collection.updateDoc, Collection.getDoc, ha, ha', h]
      · simp [Collection.updateDoc, Collection.getDoc, ha, ha', ih]

theorem getDoc_none_of_mem_ne (c : Collection) (id : String)
    (h : Collection.getDoc c id = none) :
    ∀ kv ∈ c, kv.1 ≠ id := by
  induction c with
  | nil => simp
  | cons a t ih =>
    by_cases ha : a.1 = id
    · simp [Collection.getDoc, ha] at h
    · simp [Collection.getDoc, ha] at h
      intro kv hkv
      rcases List.mem_cons.mp hkv with rfl | hmem
      · exact ha
      · exact ih h kv hmem

theorem mem_updateDoc_nodup (c : Collection) (r : String)
    (fields : List (String × Value)) (hnd : (c.map Prod.fst).Nodup)
    (id : String) (d : Doc)
    (hmem : (id, d) ∈ Collection.updateDoc c r fields) :
    (id ≠ r ∧ (id, d) ∈ c) ∨
      (id = r ∧ ∃ d0, (id, d0) ∈ c ∧ d = Doc.setFields d0 fields) := by
  induction c with
  | nil => simp [Collection.updateDoc] at hmem
  | cons a t ih =>
    have hnd' : (t.map Prod.fst).Nodup := (List.nodup_cons.mp hnd).2
    have hhead : a.1 ∉ t.map Prod.fst := (List.nodup_cons.mp hnd).1
    by_cases ha : a.1 = r
    · rw [Collection.updateDoc, if_pos ha] at hmem
      rcases List.mem_cons.mp hmem with heq | hmem'
      · right
        have hid : id = r := congrArg Prod.fst heq
        refine ⟨hid, a.2, ?_, congrArg Prod.snd heq⟩
        have : a = (id, a.2) := by
          cases a
          simp_all
        rw [← this]
        exact List.mem_cons_self a t
      · left
        constructor
        · intro hid
          apply hhead
          rw [ha, ← hid]
          exact List.mem_map.mpr ⟨(id, d), hmem', rfl⟩
        · exact List.mem_cons_of_mem a hmem'
    · rw [Collection.updateDoc, if_neg ha] at hmem
      rcases List.mem_cons.mp hmem with heq | hmem'
      · left
        constructor
        · intro hid
          apply ha
          rw [← heq]
          exact hid
        · exact List.mem_cons.mpr (Or.inl heq)
      · rcases ih hnd' hmem' with ⟨hne, hm⟩ | ⟨hid, d0, hm, hd⟩
        · exact Or.inl ⟨hne, List.mem_cons_of_mem a hm⟩
        · exact Or.inr ⟨hid, d0, List.mem_cons_of_mem a hm, hd⟩

/-!  Equation lemmas for the handlers, and preservation lemmas for the
trace semantics. -/

theorem accept_request_none_eq (s : ServerState) (r v : String)
    (hg : Collection.getDoc s.help_requests r = none) :
    accept_request true s ⟨r, v⟩ = (Except.error (404, "Request not found"), s) := by
  simp [accept_request, hg]

theorem accept_request_some_eq (s : ServerState) (r v : String) (doc : Doc)
    (hg : Collection.getDoc s.help_requests r = some doc) :
    accept_request true s ⟨r, v⟩ =
      (Except.ok "Request accepted successfully",
       { s with help_requests := (Collection.updateDoc s.help_requests r
          [("status", Value.str "accepted"),
           ("volunteer_id", Value.str v)]) }) := by
  simp [accept_request, hg]

theorem request_help_endpoint_none_eq (s : ServerState) (newId : String)
    (body : Doc) (hp : parseHelpRequest body = none) :
    request_help_endpoint true s newId body
      = (Except.error (422, "validation error"), s) := by
  simp [request_help_endpoint, hp]

theorem request_help_endpoint_some_eq (s : ServerState) (newId : String)
    (body : Doc) (req : HelpRequestIn) (hp : parseHelpRequest body = some req) :
    request_help_endpoint true s newId body
      = (Except.ok ("Help request created successfully", newId),
         { s with help_requests := (Collection.setDoc s.help_requests newId
            (req.toDoc.setField "status" (Value.str "open"))) }) := by
  simp [request_help_endpoint, request_help, hp]

theorem register_user_keeps_help_requests (dbInit : Bool) (s : ServerState)
    (cand puid name email phone fn : String) :
    (register_user dbInit s cand puid name email phone fn).2.help_requests
      = s.help_requests := by
  unfold register_user
  cases dbInit with
  | false => rfl
  | true =>
    simp only [Bool.not_true]
    cases createUser s.authDB puid email ("+" ++ phone) with
    | error e => rfl
    | ok p => rfl

theorem setFields_accept_status (d : Doc) (v : String) :
    Doc.getField
      (Doc.setFields d
        [("status", Value.str "accepted"), ("volunteer_id", Value.str v)])
      "status" = some (Value.str "accepted") := by
  show Doc.getField
    (Doc.setField (Doc.setField d "status" (Value.str "accepted"))
      "volunteer_id" (Value.str v)) "status" = some (Value.str "accepted")
  rw [getField_setField_ne _ _ _ _ (by decide), getField_setField_self]

theorem acceptedIn_updateDoc_accept (c : Collection) (r r' v : String)
    (h : acceptedIn c r = true) :
    acceptedIn
      (c.updateDoc r' [("status", Value.str "accepted"),
                       ("volunteer_id", Value.str v)]) r = true := by
  unfold acceptedIn at h ⊢
  by_cases hr : r = r'
  · subst hr
    rw [getDoc_updateDoc_self]
    cases hg : Collection.getDoc c r with
    | none => rw [hg] at h; simp at h
    | some d => simp [setFields_accept_status]
  · rw [getDoc_updateDoc_ne _ _ _ _ hr]
    exact h

theorem acceptedIn_setDoc_fresh (c : Collection) (newId r : String) (d : Doc)
    (hfresh : (Collection.getDoc c newId).isNone = true)
    (h : acceptedIn c r = true) :
    acceptedIn (c.setDoc newId d) r = true := by
  have hne : r ≠ newId := by
    intro heq
    subst heq
    unfold acceptedIn at h
    cases hg : Collection.getDoc c r with
    | none => rw [hg] at h; simp at h
    | some d0 => rw [hg] at hfresh; simp at hfresh
  unfold acceptedIn at h ⊢
  rw [getDoc_setDoc_ne _ _ _ _ hne]
  exact h

theorem isAccepted_step (s : ServerState) (op : Op) (r : String)
    (hfresh : op.freshb s = true) (h : isAccepted s r = true) :
    isAccepted (step s op) r = true := by
  cases op with
  | register cand puid name email phone fn =>
    unfold isAccepted
    rw [show (step s (Op.register cand puid name email phone fn)).help_requests
          = s.help_requests
        from register_user_keeps_help_requests true s cand puid name email phone fn]
    exact h
  | login email phone => exact h
  | fileRequest newId body =>
    show isAccepted (request_help_endpoint true s newId body).2 r = true
    cases hp : parseHelpRequest body with
    | none => rw [request_help_endpoint_none_eq s newId body hp]; exact h
    | some req =>
      rw [request_help_endpoint_some_eq s newId body req hp]
      exact acceptedIn_setDoc_fresh s.help_requests newId r _ hfresh h
  | viewRequests => exact h
  | accept r' v =>
    show isAccepted (accept_request true s ⟨r', v⟩).2 r = true
    cases hg : Collection.getDoc s.help_requests r' with
    | none => rw [accept_request_none_eq s r' v hg]; exact h
    | some doc =>
      rw [accept_request_some_eq s r' v doc hg]
      exact acceptedIn_updateDoc_accept s.help_requests r r' v h

theorem isAccepted_run (ops : List Op) (s : ServerState) (r : String)
    (hfresh : freshRunb s ops = true) (h : isAccepted s r = true) :
    isAccepted (run s ops) r = true := by
  induction ops generalizing s with
  | nil => exact h
  | cons op rest ih =>
    have h1 : op.freshb s = true := by
      unfold freshRunb at hfresh
      exact (Bool.and_eq_true _ _ |>.mp hfresh).1
    have h2 : freshRunb (step s op) rest = true := by
      unfold freshRunb at hfresh
      exact (Bool.and_eq_true _ _ |>.mp hfresh).2
    exact ih (step s op) h2 (isAccepted_step s op r h1 h)

theorem isOpen_false_of_isAccepted (s : ServerState) (r : String)
    (h : isAccepted s r = true) : isOpen s r = false := by
  unfold isAccepted acceptedIn at h
  unfold isOpen openIn
  cases hg : Collection.getDoc s.help_requests r with
  | none => rfl
  | some d =>
    rw [hg] at h
    simp only [beq_iff_eq] at h
    simp [h]

theorem view_requests_ok (s : ServerState) :
    view_requests true s = Except.ok
      ((s.help_requests.filter
          (fun kv => kv.2.getField "status" = some (Value.str "open"))).map
        (fun kv => mergeWithId kv.1 kv.2)) := rfl

theorem mem_view_iff (s : ServerState) (l : List Doc)
    (h : view_requests true s = Except.ok l) (d : Doc) :
    d ∈ l ↔ ∃ id doc, (id, doc) ∈ s.help_requests ∧
      Doc.getField doc "status" = some (Value.str "open") ∧
      d = mergeWithId id doc := by
  rw [view_requests_ok s] at h
  have hl := Except.ok.inj h
  subst hl
  constructor
  · intro hd
    rcases List.mem_map.mp hd with ⟨kv, hkv, hfd⟩
    rcases List.mem_filter.mp hkv with ⟨hmem, hp⟩
    exact ⟨kv.1, kv.2, hmem, by simpa using hp, hfd.symm⟩
  · rintro ⟨id, doc, hmem, hst, rfl⟩
    exact List.mem_map.mpr ⟨(id, doc),
      List.mem_filter.mpr ⟨hmem, by simpa using hst⟩, rfl⟩

theorem accept_request_ok_inv (s : ServerState) (r v msg : String)
    (s' : ServerState)
    (h : accept_request true s ⟨r, v⟩ = (Except.ok msg, s')) :
    ∃ doc, Collection.getDoc s.help_requests r = some doc ∧
      s' = { s with help_requests := (Collection.updateDoc s.help_requests r
        [("status", Value.str "accepted"),
         ("volunteer_id", Value.str v)]) } := by
  cases hg : Collection.getDoc s.help_requests r with
  | none =>
    rw [accept_request_none_eq s r v hg] at h
    exact absurd (congrArg Prod.fst h) (by simp)
  | some doc =>
    rw [accept_request_some_eq s r v doc hg] at h
    exact ⟨doc, rfl, (congrArg Prod.snd h).symm⟩

theorem register_user_ok_eq (s : ServerState)
    (cand puid name email phone fn : String)
    (h : s.authDB.any (fun u => u.email = email) = false) :
    register_user true s cand puid name email phone fn
      = (Except.ok ("User registered successfully", puid),
         { s with
            authDB := s.authDB ++ [⟨puid, email, "+" ++ phone⟩],
            users := (Collection.setDoc s.users puid
              [("name", Value.str name), ("email", Value.str email),
               ("phone", Value.str phone),
               ("id_proof", Value.str (cand ++ "_" ++ fn)),
               ("verified", Value.bool false)]) }) := by
  simp [register_user, createUser, h]

theorem register_user_conflict_eq (s : ServerState)
    (cand puid name email phone fn : String)
    (h : s.authDB.any (fun u => u.email = email) = true) :
    register_user true s cand puid name email phone fn
      = (Except.error (400, "Email already registered"), s) := by
  simp [register_user, createUser, h]

theorem login_user_true_eq (s : ServerState) (email phone : String) :
    login_user true s email phone =
      match loginTryBody s.authDB email phone with
      | Except.ok r => Except.ok r
      | Except.error e => Except.error (400, e.toStr) := rfl

theorem loginTryBody_none_eq (a : AuthDB) (email phone : String)
    (hg : getUserByEmail a email = none) :
    loginTryBody a email phone = Except.error (LoginExc.userNotFound email) := by
  unfold loginTryBody
  rw [hg]

theorem loginTryBody_mismatch_eq (a : AuthDB) (email phone : String)
    (u : AuthUser) (hg : getUserByEmail a email = some u)
    (hp : u.phone_number ≠ phone) :
    loginTryBody a email phone
      = Except.error (LoginExc.httpExc 401 "Invalid credentials") := by
  unfold loginTryBody
  rw [hg]
  exact if_pos hp

theorem loginTryBody_match_eq (a : AuthDB) (email phone : String)
    (u : AuthUser) (hg : getUserByEmail a email = some u)
    (hp : u.phone_number = phone) :
    loginTryBody a email phone = Except.ok ("Login successful", u.uid) := by
  unfold loginTryBody
  rw [hg]
  exact if_neg (not_not_intro hp)

/-!  The claims. -/

/-- C1 (code bug): at a login call where the Identity Provider lookup by
email succeeds but the stored phone number differs from the supplied
phone, the code does NOT respond with Unauthorized (401).  The handler
raises `HTTPException(status_code=401)` inside its own try block, and the
catch-all `except Exception` clause immediately converts it into a 400
response.  This theorem evaluates the embedded handler at the concrete
failing input: lookup succeeds, the phones differ, and the response
status is 400, not 401. -/
theorem login_mismatch_returns_400 :
    getUserByEmail [⟨"u1", "a@b.co", "+123"⟩] "a@b.co"
        = some ⟨"u1", "a@b.co", "+123"⟩
    ∧ ("+123" : String) ≠ "123"
    ∧ login_user true ⟨[⟨"u1", "a@b.co", "+123"⟩], [], []⟩ "a@b.co" "123"
        = Except.error (400, "401: Invalid credentials") :=
  ⟨rfl, by decide, rfl⟩

/-- C2 (confirmed): a login call succeeds — returning the user's id — iff
the Identity Provider lookup by email succeeds and the stored phone
number equals the supplied phone under exact string equality.  No
normalization (in particular no "+" prefixing) appears anywhere on the
login path: `login_user` compares `u.phone_number` with the raw supplied
string. -/
theorem login_success_iff (s : ServerState) (email phone : String)
    (r : String × String) :
    login_user true s email phone = Except.ok r ↔
      ∃ u, getUserByEmail s.authDB email = some u ∧ u.phone_number = phone ∧
        r = ("Login successful", u.uid) := by
  rw [login_user_true_eq]
  cases hg : getUserByEmail s.authDB email with
  | none =>
    rw [loginTryBody_none_eq s.authDB email phone hg]
    simp
  | some u =>
    by_cases hp : u.phone_number = phone
    · rw [loginTryBody_match_eq s.authDB email phone u hg hp]
      constructor
      · intro h
        exact ⟨u, rfl, hp, (Except.ok.inj h).symm⟩
      · rintro ⟨u', hu', hp', rfl⟩
        cases Option.some.inj hu'
        rfl
    · rw [loginTryBody_mismatch_eq s.authDB email phone u hg hp]
      simp [hp]

/-- C3 (confirmed): on every registration call where the Identity
Provider's create-user succeeds, the returned user_id is the
provider-assigned id (for every locally generated candidate identifier,
which is overwritten), and the `users` collection of the resulting state
holds a document keyed by that id whose `verified` field is `false`. -/
theorem register_success_spec (s : ServerState)
    (cand puid name email phone fn : String)
    (h : s.authDB.any (fun u => u.email = email) = false) :
    (register_user true s cand puid name email phone fn).1
        = Except.ok ("User registered successfully", puid)
    ∧ ∃ d, Collection.getDoc
          (register_user true s cand puid name email phone fn).2.users puid
          = some d
        ∧ Doc.getField d "verified" = some (Value.bool false) := by
  rw [register_user_ok_eq s cand puid name email phone fn h]
  exact ⟨rfl, _, getDoc_setDoc_self _ _ _, rfl⟩

/-- Witness for C3 at a concrete registration against an empty provider. -/
theorem register_success_spec_witness :
    (([] : AuthDB).any (fun u => u.email = "a@b.co") = false)
    ∧ ((register_user true ⟨[], [], []⟩ "cand" "p1" "Al" "a@b.co" "123" "id.png").1
          = Except.ok ("User registered successfully", "p1")
      ∧ ∃ d, Collection.getDoc
            (register_user true ⟨[], [], []⟩ "cand" "p1" "Al" "a@b.co" "123" "id.png").2.users "p1"
            = some d
          ∧ Doc.getField d "verified" = some (Value.bool false)) :=
  ⟨rfl, register_success_spec ⟨[], [], []⟩ "cand" "p1" "Al" "a@b.co" "123" "id.png" rfl⟩

/-- C4 (confirmed): on every registration call where the Identity
Provider reports that the email already exists, the handler fails with
400 "Email already registered" and the whole state — in particular the
`users` collection and the provider's account table — is unchanged. -/
theorem register_conflict_spec (s : ServerState)
    (cand puid name email phone fn : String)
    (h : s.authDB.any (fun u => u.email = email) = true) :
    register_user true s cand puid name email phone fn
      = (Except.error (400, "Email already registered"), s) :=
  register_user_conflict_eq s cand puid name email phone fn h

/-- Witness for C4: re-registering an existing email. -/
theorem register_conflict_spec_witness :
    (([⟨"u1", "a@b.co", "+123"⟩] : AuthDB).any (fun u => u.email = "a@b.co") = true)
    ∧ register_user true ⟨[⟨"u1", "a@b.co", "+123"⟩], [], []⟩
        "cand" "p2" "Bo" "a@b.co" "99" "id2.png"
      = (Except.error (400, "Email already registered"),
         ⟨[⟨"u1", "a@b.co", "+123"⟩], [], []⟩) :=
  ⟨rfl, register_conflict_spec ⟨[⟨"u1", "a@b.co", "+123"⟩], [], []⟩
    "cand" "p2" "Bo" "a@b.co" "99" "id2.png" rfl⟩

/-- C5 (confirmed): every file-help-request call whose body parses
(pydantic drops any client-supplied `status` field, since the model has
no such field) succeeds with the new request id, and the stored document
has `status` equal to "open" — regardless of what the body said. -/
theorem request_help_forces_open (s : ServerState) (newId : String)
    (body : Doc) (req : HelpRequestIn)
    (h : parseHelpRequest body = some req) :
    (request_help_endpoint true s newId body).1
        = Except.ok ("Help request created successfully", newId)
    ∧ ∃ d, Collection.getDoc
          (request_help_endpoint true s newId body).2.help_requests newId
          = some d
        ∧ Doc.getField d "status" = some (Value.str "open") := by
  rw [request_help_endpoint_some_eq s newId body req h]
  exact ⟨rfl, _, getDoc_setDoc_self _ _ _, getField_setField_self _ _ _⟩

/-- Witness for C5: the client supplies `status = "urgent"`, yet the
stored document's status is "open". -/
theorem request_help_forces_open_witness :
    (parseHelpRequest
        [("user_id", Value.str "u1"), ("category", Value.str "cat"),
         ("description", Value.str "desc"), ("location", Value.str "loc"),
         ("status", Value.str "urgent")]
      = some ⟨"u1", "cat", "desc", "loc"⟩)
    ∧ ((request_help_endpoint true ⟨[], [], []⟩ "r1"
          [("user_id", Value.str "u1"), ("category", Value.str "cat"),
           ("description", Value.str "desc"), ("location", Value.str "loc"),
           ("status", Value.str "urgent")]).1
        = Except.ok ("Help request created successfully", "r1")
      ∧ ∃ d, Collection.getDoc
            (request_help_endpoint true ⟨[], [], []⟩ "r1"
              [("user_id", Value.str "u1"), ("category", Value.str "cat"),
               ("description", Value.str "desc"), ("location", Value.str "loc"),
               ("status", Value.str "urgent")]).2.help_requests "r1"
            = some d
          ∧ Doc.getField d "status" = some (Value.str "open")) :=
  ⟨rfl, request_help_forces_open ⟨[], [], []⟩ "r1" _ ⟨"u1", "cat", "desc", "loc"⟩ rfl⟩

/-- C7 (confirmed): accepting a request id that does not exist in the
store fails with 404 "Request not found" and leaves the whole state
unchanged. -/
theorem accept_missing_404 (s : ServerState) (r v : String)
    (h : Collection.getDoc s.help_requests r = none) :
    accept_request true s ⟨r, v⟩ = (Except.error (404, "Request not found"), s) :=
  accept_request_none_eq s r v h

/-- Witness for C7: accepting against an empty store. -/
theorem accept_missing_404_witness :
    (Collection.getDoc ([] : Collection) "nope" = none)
    ∧ accept_request true ⟨[], [], []⟩ ⟨"nope", "v1"⟩
      = (Except.error (404, "Request not found"), ⟨[], [], []⟩) :=
  ⟨rfl, accept_missing_404 ⟨[], [], []⟩ "nope" "v1" rfl⟩

/-- C8 (confirmed): accepting any existing request — including one whose
status is already "accepted" — succeeds, sets its `status` to "accepted"
and its `volunteer_id` to the supplied volunteer (overwriting any
previous value), keeps every other field of the document and every other
document (and the other collections) unchanged, with no concurrency
check: the update is unconditional in the stored document. -/
theorem accept_existing_spec (s : ServerState) (r v : String) (doc : Doc)
    (h : Collection.getDoc s.help_requests r = some doc) :
    (accept_request true s ⟨r, v⟩).1 = Except.ok "Request accepted successfully"
    ∧ (accept_request true s ⟨r, v⟩).2.authDB = s.authDB
    ∧ (accept_request true s ⟨r, v⟩).2.users = s.users
    ∧ (∀ id, id ≠ r →
        Collection.getDoc (accept_request true s ⟨r, v⟩).2.help_requests id
          = Collection.getDoc s.help_requests id)
    ∧ ∃ d', Collection.getDoc (accept_request true s ⟨r, v⟩).2.help_requests r
          = some d'
        ∧ Doc.getField d' "status" = some (Value.str "accepted")
        ∧ Doc.getField d' "volunteer_id" = some (Value.str v)
        ∧ ∀ k, k ≠ "status" → k ≠ "volunteer_id" →
            Doc.getField d' k = Doc.getField doc k := by
  rw [accept_request_some_eq s r v doc h]
  refine ⟨rfl, rfl, rfl, ?_, ?_⟩
  · intro id hid
    exact getDoc_updateDoc_ne _ _ _ _ hid
  · refine ⟨Doc.setFields doc
      [("status", Value.str "accepted"), ("volunteer_id", Value.str v)],
      ?_, setFields_accept_status doc v, ?_, ?_⟩
    · rw [getDoc_updateDoc_self, h]
      rfl
    · show Doc.getField
        (Doc.setField (Doc.setField doc "status" (Value.str "accepted"))
          "volunteer_id" (Value.str v)) "volunteer_id"
        = some (Value.str v)
      exact getField_setField_self _ _ _
    · intro k hks hkv
      show Doc.getField
        (Doc.setField (Doc.setField doc "status" (Value.str "accepted"))
          "volunteer_id" (Value.str v)) k = Doc.getField doc k
      rw [getField_setField_ne _ _ _ _ hkv, getField_setField_ne _ _ _ _ hks]

/-- Witness for C8: re-accepting an already-accepted request overwrites
the volunteer. -/
theorem accept_existing_spec_witness :
    (Collection.getDoc
        [("r1", [("user_id", Value.str "u1"),
                 ("status", Value.str "accepted"),
                 ("volunteer_id", Value.str "v1")])] "r1"
      = some [("user_id", Value.str "u1"),
              ("status", Value.str "accepted"),
              ("volunteer_id", Value.str "v1")])
    ∧ ((accept_request true
          ⟨[], [], [("r1", [("user_id", Value.str "u1"),
                            ("status", Value.str "accepted"),
                            ("volunteer_id", Value.str "v1")])]⟩
          ⟨"r1", "v2"⟩).1 = Except.ok "Request accepted successfully"
      ∧ (accept_request true
          ⟨[], [], [("r1", [("user_id", Value.str "u1"),
                            ("status", Value.str "accepted"),
                            ("volunteer_id", Value.str "v1")])]⟩
          ⟨"r1", "v2"⟩).2.authDB = ([] : AuthDB)
      ∧ (accept_request true
          ⟨[], [], [("r1", [("user_id", Value.str "u1"),
                            ("status", Value.str "accepted"),
                            ("volunteer_id", Value.str "v1")])]⟩
          ⟨"r1", "v2"⟩).2.users = ([] : Collection)
      ∧ (∀ id, id ≠ "r1" →
          Collection.getDoc (accept_request true
            ⟨[], [], [("r1", [("user_id", Value.str "u1"),
                              ("status", Value.str "accepted"),
                              ("volunteer_id", Value.str "v1")])]⟩
            ⟨"r1", "v2"⟩).2.help_requests id
            = Collection.getDoc
                [("r1", [("user_id", Value.str "u1"),
                         ("status", Value.str "accepted"),
                         ("volunteer_id", Value.str "v1")])] id)
      ∧ ∃ d', Collection.getDoc (accept_request true
            ⟨[], [], [("r1", [("user_id", Value.str "u1"),
                              ("status", Value.str "accepted"),
                              ("volunteer_id", Value.str "v1")])]⟩
            ⟨"r1", "v2"⟩).2.help_requests "r1" = some d'
          ∧ Doc.getField d' "status" = some (Value.str "accepted")
          ∧ Doc.getField d' "volunteer_id" = some (Value.str "v2")
          ∧ ∀ k, k ≠ "status" → k ≠ "volunteer_id" →
              Doc.getField d' k
                = Doc.getField [("user_id", Value.str "u1"),
                                ("status", Value.str "accepted"),
                                ("volunteer_id", Value.str "v1")] k) :=
  ⟨rfl, accept_existing_spec
    ⟨[], [], [("r1", [("user_id", Value.str "u1"),
                      ("status", Value.str "accepted"),
                      ("volunteer_id", Value.str "v1")])]⟩
    "r1" "v2" _ rfl⟩

/-- C10 (confirmed): when the Firebase credential is absent at startup
(`db` is `None`), each of the five operational handlers fails immediately
with the degraded 500 "Firebase is not initialized." response — before
any collaborator call — and changes no state. -/
theorem db_uninitialized_degrades (s : ServerState)
    (cand puid name email phone fn newId r v : String) (req : HelpRequestIn) :
    register_user false s cand puid name email phone fn
        = (Except.error (500, dbMissingDetail), s)
    ∧ login_user false s email phone = Except.error (500, dbMissingDetail)
    ∧ request_help false s newId req
        = (Except.error (500, dbMissingDetail), s)
    ∧ view_requests false s = Except.error (500, dbMissingDetail)
    ∧ accept_request false s ⟨r, v⟩
        = (Except.error (500, dbMissingDetail), s) :=
  ⟨rfl, rfl, rfl, rfl, rfl⟩

/-- C6 (confirmed): listing open requests returns exactly the
help-request documents whose status is "open", each shaped as the
document's stored fields merged onto its identifier; and once a request
has been accepted, the listing of the resulting store excludes it (every
listed row comes from a document with a different id).  Ids in a
Firestore collection are unique, hence the Nodup hypothesis on the keys
for the second part. -/
theorem view_requests_spec (s : ServerState) (l : List Doc)
    (hv : view_requests true s = Except.ok l) :
    (∀ d, d ∈ l ↔ ∃ id doc, (id, doc) ∈ s.help_requests ∧
        Doc.getField doc "status" = some (Value.str "open") ∧
        d = mergeWithId id doc)
    ∧ ∀ r v msg s' l', (s.help_requests.map Prod.fst).Nodup →
        accept_request true s ⟨r, v⟩ = (Except.ok msg, s') →
        view_requests true s' = Except.ok l' →
        ∀ d ∈ l', ∃ id doc, id ≠ r ∧ (id, doc) ∈ s'.help_requests ∧
          Doc.getField doc "status" = some (Value.str "open") ∧
          d = mergeWithId id doc := by
  constructor
  · exact mem_view_iff s l hv
  · intro r v msg s' l' hnd ha hv' d hd
    rcases accept_request_ok_inv s r v msg s' ha with ⟨doc0, hg, rfl⟩
    rcases (mem_view_iff _ l' hv' d).mp hd with ⟨id, doc, hmem, hst, hd'⟩
    rcases mem_updateDoc_nodup s.help_requests r _ hnd id doc hmem with
      ⟨hne, _⟩ | ⟨hid, d0, hm0, hdoc⟩
    · exact ⟨id, doc, hne, hmem, hst, hd'⟩
    · exfalso
      subst hid
      rw [hdoc, setFields_accept_status] at hst
      exact absurd (Option.some.inj hst) (by decide)

/-- Witness for C6: one open request, listed, then accepted. -/
theorem view_requests_spec_witness :
    (view_requests true
        ⟨[], [], [("r1", [("user_id", Value.str "u1"),
                          ("category", Value.str "cat"),
                          ("description", Value.str "desc"),
                          ("location", Value.str "loc"),
                          ("status", Value.str "open")])]⟩
      = Except.ok [[("request_id", Value.str "r1"),
                    ("user_id", Value.str "u1"),
                    ("category", Value.str "cat"),
                    ("description", Value.str "desc"),
                    ("location", Value.str "loc"),
                    ("status", Value.str "open")]])
    ∧ ((∀ d, d ∈ [[("request_id", Value.str "r1"),
                   ("user_id", Value.str "u1"),
                   ("category", Value.str "cat"),
                   ("description", Value.str "desc"),
                   ("location", Value.str "loc"),
                   ("status", Value.str "open")]] ↔
          ∃ id doc, (id, doc) ∈ [("r1", [("user_id", Value.str "u1"),
                                         ("category", Value.str "cat"),
                                         ("description", Value.str "desc"),
                                         ("location", Value.str "loc"),
                                         ("status", Value.str "open")])] ∧
            Doc.getField doc "status" = some (Value.str "open") ∧
            d = mergeWithId id doc)
      ∧ ∀ r v msg s' l',
          (([("r1", [("user_id", Value.str "u1"),
                     ("category", Value.str "cat"),
                     ("description", Value.str "desc"),
                     ("location", Value.str "loc"),
                     ("status", Value.str "open")])] : Collection).map Prod.fst).Nodup →
          accept_request true
            ⟨[], [], [("r1", [("user_id", Value.str "u1"),
                              ("category", Value.str "cat"),
                              ("description", Value.str "desc"),
                              ("location", Value.str "loc"),
                              ("status", Value.str "open")])]⟩ ⟨r, v⟩
            = (Except.ok msg, s') →
          view_requests true s' = Except.ok l' →
          ∀ d ∈ l', ∃ id doc, id ≠ r ∧ (id, doc) ∈ s'.help_requests ∧
            Doc.getField doc "status" = some (Value.str "open") ∧
            d = mergeWithId id doc) :=
  ⟨rfl, view_requests_spec
    ⟨[], [], [("r1", [("user_id", Value.str "u1"),
                      ("category", Value.str "cat"),
                      ("description", Value.str "desc"),
                      ("location", Value.str "loc"),
                      ("status", Value.str "open")])]⟩
    [[("request_id", Value.str "r1"),
      ("user_id", Value.str "u1"),
      ("category", Value.str "cat"),
      ("description", Value.str "desc"),
      ("location", Value.str "loc"),
      ("status", Value.str "open")]] rfl⟩

/-- C9 (corrected): a help request's status starts "open" when filed and
never transitions back from "accepted" to "open": along any sequence of
API calls whose generated ids are fresh, an accepted request stays
accepted and is never open again.  The original claim's further
assertion that a request "is never re-accepted once accepted" is false
on this code — see the counterexample theorem, where a second accept of
an already-accepted request succeeds and overwrites the volunteer. -/
theorem helpRequest_status_monotonic (s : ServerState) (ops : List Op)
    (r : String) (hfresh : freshRunb s ops = true)
    (hacc : isAccepted s r = true) :
    (∀ s0 newId req, isOpen (request_help true s0 newId req).2 newId = true)
    ∧ isAccepted (run s ops) r = true
    ∧ isOpen (run s ops) r = false := by
  refine ⟨?_, isAccepted_run ops s r hfresh hacc,
    isOpen_false_of_isAccepted _ r (isAccepted_run ops s r hfresh hacc)⟩
  intro s0 newId req
  show openIn (Collection.setDoc s0.help_requests newId
    (req.toDoc.setField "status" (Value.str "open"))) newId = true
  unfold openIn
  rw [getDoc_setDoc_self]
  show (Doc.getField (req.toDoc.setField "status" (Value.str "open")) "status"
    == some (Value.str "open")) = true
  rw [getField_setField_self]
  rfl

/-- Witness for C9: an accepted request stays accepted across a run of
every kind of API call. -/
theorem helpRequest_status_monotonic_witness :
    (freshRunb ⟨[], [], [("r1", [("user_id", Value.str "u1"),
                                 ("status", Value.str "accepted"),
                                 ("volunteer_id", Value.str "v1")])]⟩
        [Op.accept "r1" "v2",
         Op.fileRequest "r2" [("user_id", Value.str "u2"),
                              ("category", Value.str "cat"),
                              ("description", Value.str "desc"),
                              ("location", Value.str "loc")],
         Op.login "a@b.co" "123", Op.viewRequests,
         Op.register "c0" "p0" "Al" "a@b.co" "123" "id.png"] = true)
    ∧ (isAccepted ⟨[], [], [("r1", [("user_id", Value.str "u1"),
                                    ("status", Value.str "accepted"),
                                    ("volunteer_id", Value.str "v1")])]⟩ "r1" = true)
    ∧ ((∀ s0 newId req, isOpen (request_help true s0 newId req).2 newId = true)
      ∧ isAccepted (run ⟨[], [], [("r1", [("user_id", Value.str "u1"),
                                          ("status", Value.str "accepted"),
                                          ("volunteer_id", Value.str "v1")])]⟩
          [Op.accept "r1" "v2",
           Op.fileRequest "r2" [("user_id", Value.str "u2"),
                                ("category", Value.str "cat"),
                                ("description", Value.str "desc"),
                                ("location", Value.str "loc")],
           Op.login "a@b.co" "123", Op.viewRequests,
           Op.register "c0" "p0" "Al" "a@b.co" "123" "id.png"]) "r1" = true
      ∧ isOpen (run ⟨[], [], [("r1", [("user_id", Value.str "u1"),
                                      ("status", Value.str "accepted"),
                                      ("volunteer_id", Value.str "v1")])]⟩
          [Op.accept "r1" "v2",
           Op.fileRequest "r2" [("user_id", Value.str "u2"),
                                ("category", Value.str "cat"),
                                ("description", Value.str "desc"),
                                ("location", Value.str "loc")],
           Op.login "a@b.co" "123", Op.viewRequests,
           Op.register "c0" "p0" "Al" "a@b.co" "123" "id.png"]) "r1" = false) :=
  ⟨rfl, rfl, helpRequest_status_monotonic
    ⟨[], [], [("r1", [("user_id", Value.str "u1"),
                      ("status", Value.str "accepted"),
                      ("volunteer_id", Value.str "v1")])]⟩
    [Op.accept "r1" "v2",
     Op.fileRequest "r2" [("user_id", Value.str "u2"),
                          ("category", Value.str "cat"),
                          ("description", Value.str "desc"),
                          ("location", Value.str "loc")],
     Op.login "a@b.co" "123", Op.viewRequests,
     Op.register "c0" "p0" "Al" "a@b.co" "123" "id.png"] "r1" rfl rfl⟩

/-- C9 counterexample: after filing request "r1" and accepting it as
volunteer "v1", the request is accepted; a second accept by "v2"
nonetheless succeeds and overwrites volunteer_id — the request IS
re-accepted once accepted, refuting that part of the claim. -/
theorem reaccept_counterexample :
    isAccepted (run ⟨[], [], []⟩
        [Op.fileRequest "r1" [("user_id", Value.str "u1"),
                              ("category", Value.str "cat"),
                              ("description", Value.str "desc"),
                              ("location", Value.str "loc")],
         Op.accept "r1" "v1"]) "r1" = true
    ∧ (accept_request true (run ⟨[], [], []⟩
        [Op.fileRequest "r1" [("user_id", Value.str "u1"),
                              ("category", Value.str "cat"),
                              ("description", Value.str "desc"),
                              ("location", Value.str "loc")],
         Op.accept "r1" "v1"]) ⟨"r1", "v2"⟩).1
        = Except.ok "Request accepted successfully"
    ∧ Doc.getField
        ((Collection.getDoc (accept_request true (run ⟨[], [], []⟩
            [Op.fileRequest "r1" [("user_id", Value.str "u1"),
                                  ("category", Value.str "cat"),
                                  ("description", Value.str "desc"),
                                  ("location", Value.str "loc")],
             Op.accept "r1" "v1"]) ⟨"r1", "v2"⟩).2.help_requests "r1").getD [])
        "volunteer_id"
      = some (Value.str "v2") :=
  ⟨rfl, rfl, rfl⟩
